import Mathlib

set_option maxHeartbeats 1000000
set_option maxRecDepth 4000

/-
Verification development for the protoc-gen-bq-schema plugin (main.go).
The Go source is shallowly embedded: Go maps become association lists,
pointer-linked package trees become an inductive tree plus an explicit
path (the current package is the root tree together with the list of
package components leading to the node), and the unbounded recursion of
the schema converter becomes a fuel-indexed total function.  String
splitting on the dot separator (strings.Split / strings.SplitN with the
"." separator) is embedded as a character-level function so that all
definitions evaluate inside the kernel.
-/

namespace ProtocGenBqSchema

/-- Field level options carried by the gen_bq_schema.bigquery extension on a
field (protos.BigQueryFieldOptions): Ignore, Require, TypeOverride, Name,
Description.  Presence of the extension is modelled by Option at the use
site. -/
structure BigQueryFieldOptions where
  ignore : Bool
  require : Bool
  typeOverride : String
  name : String
  description : String

/-- Message level options produced by getBigqueryMessageOptions
(protos.BigQueryMessageOptions): TableName and UseJsonNames.  The Go struct
literal in getBigqueryMessageOptions only sets TableName, leaving
UseJsonNames at its zero value false. -/
structure BigQueryMessageOptions where
  tableName : String
  useJsonNames : Bool

/-- Modelled from the spec: the options blob of a message descriptor.  The
faceit tracking extensions E_EventName (a string) and E_EventVersion (an
integer) are decoded by generated code that lives outside this repository;
per the specification the annotation payloads are delivered to the core as
already typed values.  proto.HasExtension is modelled as isSome of the
corresponding component, and proto.GetExtension as extracting the value. -/
structure MessageOptionsBlob where
  eventName : Option String
  eventVersion : Option Int

/-- Field descriptor (descriptor.FieldDescriptorProto), restricted to the
accessors the plugin reads: GetName, GetJsonName, GetLabel, GetType,
GetTypeName, GetOptions with the bigquery extension.  Label and type are
kept as raw protobuf enum numbers (Nat) exactly as the Go map lookups see
them. -/
structure FieldDescriptorProto where
  name : String
  jsonName : String
  label : Nat
  type : Nat
  typeName : String
  options : Option BigQueryFieldOptions

/-- Message descriptor (descriptor.DescriptorProto), restricted to the
accessors the plugin reads: GetName, GetField, GetNestedType, GetOptions. -/
inductive DescriptorProto where
  | mk (name : String) (field : List FieldDescriptorProto)
       (nestedType : List DescriptorProto) (options : Option MessageOptionsBlob)

def DescriptorProto.name : DescriptorProto → String
  | .mk n _ _ _ => n

def DescriptorProto.field : DescriptorProto → List FieldDescriptorProto
  | .mk _ f _ _ => f

def DescriptorProto.nestedType : DescriptorProto → List DescriptorProto
  | .mk _ _ ns _ => ns

def DescriptorProto.options : DescriptorProto → Option MessageOptionsBlob
  | .mk _ _ _ o => o

/-- Package node (ProtoPackage): name, children keyed by component, types
keyed by simple message name.  Go maps are embedded as association lists;
the parent pointer is replaced by carrying the path from the root
explicitly. -/
inductive ProtoPackage where
  | mk (name : String) (children : List (String × ProtoPackage))
       (types : List (String × DescriptorProto))

def ProtoPackage.name : ProtoPackage → String
  | .mk n _ _ => n

def ProtoPackage.children : ProtoPackage → List (String × ProtoPackage)
  | .mk _ c _ => c

def ProtoPackage.types : ProtoPackage → List (String × DescriptorProto)
  | .mk _ _ t => t

/-- Association list lookup, modelling a Go map read m[k]. -/
def lookupAssoc {α : Type} : List (String × α) → String → Option α
  | [], _ => none
  | (k, v) :: rest, key => if k = key then some v else lookupAssoc rest key

/-- Association list update, modelling a Go map write m[k] = v (replace the
binding if the key is present, add it otherwise). -/
def insertAssoc {α : Type} : List (String × α) → String → α → List (String × α)
  | [], k, v => [(k, v)]
  | (k0, v0) :: rest, k, v =>
      if k0 = k then (k, v) :: rest else (k0, v0) :: insertAssoc rest k v

/-- The empty global package, the initial value of the globalPkg variable. -/
def globalPkgInit : ProtoPackage := .mk "" [] []

/-- Character level splitting on the dot, embedding strings.Split(s, ".").
Like the Go function it returns one (possibly empty) component per
dot-separated run, and [""] on the empty string. -/
def splitDotsChars : List Char → List (List Char)
  | [] => [[]]
  | c :: cs =>
      match splitDotsChars cs with
      | [] => [[]]
      | head :: tail =>
          if c = '.' then [] :: head :: tail else (c :: head) :: tail

/-- Embeds strings.Split(s, "."). -/
def splitDots (s : String) : List String :=
  (splitDotsChars s.data).map String.mk

/-- Embeds strings.HasPrefix(s, "."). -/
def startsWithDot (s : String) : Bool :=
  match s.data with
  | '.' :: _ => true
  | _ => false

/-- Embeds the byte slice s[1:] for a string whose first byte is the dot. -/
def dropFirstChar (s : String) : String :=
  String.mk s.data.tail

/-- Core of registerType: walk packagePath component by component from the
given node, creating missing children (with the dotted name the Go code
builds), and insert the message into the types map of the final node. -/
def insertType : ProtoPackage → List String → DescriptorProto → ProtoPackage
  | .mk n cs ts, [], msg => .mk n cs (insertAssoc ts msg.name msg)
  | .mk n cs ts, c :: rest, msg =>
      let child := match lookupAssoc cs c with
        | some ch => ch
        | none => .mk (n ++ "." ++ c) [] []
      .mk n (insertAssoc cs c (insertType child rest msg)) ts

/-- Components registerType actually walks: nil package pointer means no
components, otherwise strings.Split on the dot with the leading empty
components skipped (the loop skips empty nodes while still at globalPkg). -/
def registerComps : Option String → List String
  | none => []
  | some s => (splitDots s).dropWhile (fun c => c = "")

/-- Embeds registerType(pkgName, msg).  The Go function mutates the global
tree; the embedding returns the updated tree. -/
def registerType (root : ProtoPackage) (pkgName : Option String)
    (msg : DescriptorProto) : ProtoPackage :=
  insertType root (registerComps pkgName) msg

/-- First nested type of desc with the given name, embedding the inner loop
of relativelyLookupNestedType. -/
def findNested (desc : DescriptorProto) (c : String) : Option DescriptorProto :=
  desc.nestedType.find? (fun n => n.name == c)

/-- Embeds relativelyLookupNestedType on the already split component list:
walk the nested type lists one component at a time, failing as soon as a
component has no matching nested type. -/
def relativelyLookupNestedTypeC : DescriptorProto → List String → Option DescriptorProto
  | desc, [] => some desc
  | desc, c :: rest =>
      match findNested desc c with
      | some n => relativelyLookupNestedTypeC n rest
      | none => none

/-- Embeds relativelyLookupNestedType(desc, name) (the Go function splits
name on the dot and walks the nested type lists). -/
def relativelyLookupNestedType (desc : DescriptorProto) (name : String) :
    Option DescriptorProto :=
  relativelyLookupNestedTypeC desc (splitDots name)

/-- Embeds (pkg).relativelyLookupType on the already split component list.
A single component is looked up in the types map of the node only.  With a
dotted remainder the code first tries the head as a child package name and,
when such a child exists, returns the result of recursing into it (whether
or not that recursion succeeds); only when no such child exists does it try
the head as a type of this node and walk its nested types. -/
def relativelyLookupTypeC : ProtoPackage → List String → Option DescriptorProto
  | _, [] => none
  | pkg, [c] => lookupAssoc pkg.types c
  | pkg, c :: c2 :: rest =>
      match lookupAssoc pkg.children c with
      | some child => relativelyLookupTypeC child (c2 :: rest)
      | none =>
          match lookupAssoc pkg.types c with
          | some msg => relativelyLookupNestedTypeC msg (c2 :: rest)
          | none => none

/-- Embeds (pkg).relativelyLookupType(name): strings.SplitN(name, ".", 2)
applied repeatedly is the full split on the dot. -/
def relativelyLookupType (pkg : ProtoPackage) (name : String) :
    Option DescriptorProto :=
  relativelyLookupTypeC pkg (splitDots name)

/-- Node reached from a package node by a component path (following the
children maps), the path form of dereferencing a chain of child pointers. -/
def nodeAt : ProtoPackage → List String → Option ProtoPackage
  | pkg, [] => some pkg
  | pkg, c :: rest =>
      match lookupAssoc pkg.children c with
      | some child => nodeAt child rest
      | none => none

/-- Embeds (pkg).relativelyLookupPackage(name): split on the dot and walk
the children maps, failing when a component is missing. -/
def relativelyLookupPackage (root : ProtoPackage) (name : String) :
    Option ProtoPackage :=
  nodeAt root (splitDots name)

/-- Upward loop of lookupType: try the node designated by the reversed path,
then its parent (the reversed path with its head dropped), down to the root.
The argument is the reversed current path, so the head is the innermost
component. -/
def lookupUp (root : ProtoPackage) (name : String) : List String → Option DescriptorProto
  | [] => relativelyLookupType root name
  | c :: rest =>
      match nodeAt root (c :: rest).reverse with
      | some pkg =>
          match relativelyLookupType pkg name with
          | some d => some d
          | none => lookupUp root name rest
      | none => lookupUp root name rest

/-- Embeds (pkg).lookupType(name) where the receiver is the node at curPath
in root: a reference starting with the dot is resolved against the global
root only (with the dot stripped); otherwise the node and its ancestors are
tried from the innermost outward. -/
def lookupType (root : ProtoPackage) (curPath : List String) (name : String) :
    Option DescriptorProto :=
  if startsWithDot name then relativelyLookupType root (dropFirstChar name)
  else lookupUp root name curPath.reverse

/-- Protobuf enum number of descriptor.FieldDescriptorProto_LABEL_OPTIONAL. -/
def LABEL_OPTIONAL : Nat := 1

/-- Protobuf enum number of descriptor.FieldDescriptorProto_LABEL_REQUIRED. -/
def LABEL_REQUIRED : Nat := 2

/-- Protobuf enum number of descriptor.FieldDescriptorProto_LABEL_REPEATED. -/
def LABEL_REPEATED : Nat := 3

/-- Protobuf enum number of descriptor.FieldDescriptorProto_TYPE_DOUBLE. -/
def TYPE_DOUBLE : Nat := 1

/-- Protobuf enum number of descriptor.FieldDescriptorProto_TYPE_FLOAT. -/
def TYPE_FLOAT : Nat := 2

/-- Protobuf enum number of descriptor.FieldDescriptorProto_TYPE_INT64. -/
def TYPE_INT64 : Nat := 3

/-- Protobuf enum number of descriptor.FieldDescriptorProto_TYPE_UINT64. -/
def TYPE_UINT64 : Nat := 4

/-- Protobuf enum number of descriptor.FieldDescriptorProto_TYPE_INT32. -/
def TYPE_INT32 : Nat := 5

/-- Protobuf enum number of descriptor.FieldDescriptorProto_TYPE_FIXED64. -/
def TYPE_FIXED64 : Nat := 6

/-- Protobuf enum number of descriptor.FieldDescriptorProto_TYPE_FIXED32. -/
def TYPE_FIXED32 : Nat := 7

/-- Protobuf enum number of descriptor.FieldDescriptorProto_TYPE_BOOL. -/
def TYPE_BOOL : Nat := 8

/-- Protobuf enum number of descriptor.FieldDescriptorProto_TYPE_STRING. -/
def TYPE_STRING : Nat := 9

/-- Protobuf enum number of descriptor.FieldDescriptorProto_TYPE_GROUP. -/
def TYPE_GROUP : Nat := 10

/-- Protobuf enum number of descriptor.FieldDescriptorProto_TYPE_MESSAGE. -/
def TYPE_MESSAGE : Nat := 11

/-- Protobuf enum number of descriptor.FieldDescriptorProto_TYPE_BYTES. -/
def TYPE_BYTES : Nat := 12

/-- Protobuf enum number of descriptor.FieldDescriptorProto_TYPE_UINT32. -/
def TYPE_UINT32 : Nat := 13

/-- Protobuf enum number of descriptor.FieldDescriptorProto_TYPE_ENUM. -/
def TYPE_ENUM : Nat := 14

/-- Protobuf enum number of descriptor.FieldDescriptorProto_TYPE_SFIXED32. -/
def TYPE_SFIXED32 : Nat := 15

/-- Protobuf enum number of descriptor.FieldDescriptorProto_TYPE_SFIXED64. -/
def TYPE_SFIXED64 : Nat := 16

/-- Protobuf enum number of descriptor.FieldDescriptorProto_TYPE_SINT32. -/
def TYPE_SINT32 : Nat := 17

/-- Protobuf enum number of descriptor.FieldDescriptorProto_TYPE_SINT64. -/
def TYPE_SINT64 : Nat := 18

/-- Embeds the typeFromWKT map: type reference strings of well known wrapper
and temporal types mapped to scalar BigQuery types. -/
def typeFromWKT (s : String) : Option String :=
  if s = ".google.protobuf.Int32Value" then some "INTEGER"
  else if s = ".google.protobuf.Int64Value" then some "INTEGER"
  else if s = ".google.protobuf.UInt32Value" then some "INTEGER"
  else if s = ".google.protobuf.UInt64Value" then some "INTEGER"
  else if s = ".google.protobuf.DoubleValue" then some "FLOAT"
  else if s = ".google.protobuf.FloatValue" then some "FLOAT"
  else if s = ".google.protobuf.BoolValue" then some "BOOLEAN"
  else if s = ".google.protobuf.StringValue" then some "STRING"
  else if s = ".google.protobuf.BytesValue" then some "BYTES"
  else if s = ".google.protobuf.Duration" then some "STRING"
  else if s = ".google.protobuf.Timestamp" then some "TIMESTAMP"
  else none

/-- Embeds the typeFromFieldType map: field kind enum number to BigQuery
column type; a number outside the map yields none. -/
def typeFromFieldType (t : Nat) : Option String :=
  if t = TYPE_DOUBLE ∨ t = TYPE_FLOAT then some "FLOAT"
  else if t = TYPE_INT64 ∨ t = TYPE_UINT64 ∨ t = TYPE_INT32 ∨ t = TYPE_UINT32 ∨
          t = TYPE_FIXED64 ∨ t = TYPE_FIXED32 ∨ t = TYPE_SFIXED32 ∨
          t = TYPE_SFIXED64 ∨ t = TYPE_SINT32 ∨ t = TYPE_SINT64 then some "INTEGER"
  else if t = TYPE_STRING then some "STRING"
  else if t = TYPE_BYTES then some "BYTES"
  else if t = TYPE_ENUM then some "STRING"
  else if t = TYPE_BOOL then some "BOOLEAN"
  else if t = TYPE_GROUP ∨ t = TYPE_MESSAGE then some "RECORD"
  else none

/-- Embeds the modeFromFieldLabel map: cardinality label enum number to
BigQuery mode; a number outside the map yields none. -/
def modeFromFieldLabel (l : Nat) : Option String :=
  if l = LABEL_OPTIONAL then some "NULLABLE"
  else if l = LABEL_REQUIRED then some "REQUIRED"
  else if l = LABEL_REPEATED then some "REPEATED"
  else none

/-- Embeds the String method of the label enum (proto.EnumName): the
registered name for known values, the decimal number otherwise. -/
def labelString (l : Nat) : String :=
  if l = LABEL_OPTIONAL then "LABEL_OPTIONAL"
  else if l = LABEL_REQUIRED then "LABEL_REQUIRED"
  else if l = LABEL_REPEATED then "LABEL_REPEATED"
  else toString l

/-- Embeds the String method of the type enum (proto.EnumName): the
registered name for known values, the decimal number otherwise. -/
def typeString (t : Nat) : String :=
  if t = TYPE_DOUBLE then "TYPE_DOUBLE"
  else if t = TYPE_FLOAT then "TYPE_FLOAT"
  else if t = TYPE_INT64 then "TYPE_INT64"
  else if t = TYPE_UINT64 then "TYPE_UINT64"
  else if t = TYPE_INT32 then "TYPE_INT32"
  else if t = TYPE_FIXED64 then "TYPE_FIXED64"
  else if t = TYPE_FIXED32 then "TYPE_FIXED32"
  else if t = TYPE_BOOL then "TYPE_BOOL"
  else if t = TYPE_STRING then "TYPE_STRING"
  else if t = TYPE_GROUP then "TYPE_GROUP"
  else if t = TYPE_MESSAGE then "TYPE_MESSAGE"
  else if t = TYPE_BYTES then "TYPE_BYTES"
  else if t = TYPE_UINT32 then "TYPE_UINT32"
  else if t = TYPE_ENUM then "TYPE_ENUM"
  else if t = TYPE_SFIXED32 then "TYPE_SFIXED32"
  else if t = TYPE_SFIXED64 then "TYPE_SFIXED64"
  else if t = TYPE_SINT32 then "TYPE_SINT32"
  else if t = TYPE_SINT64 then "TYPE_SINT64"
  else toString t

/-- Embeds (msgOpts).GetUseJsonNames(), the nil safe getter: false when the
options pointer is nil. -/
def getUseJsonNames : Option BigQueryMessageOptions → Bool
  | some o => o.useJsonNames
  | none => false

/-- Embeds getBigqueryMessageOptions(msg).  Absent options blob yields none;
missing either of the two required annotations yields none; a present but
empty event name string triggers the early return of the Go code (the err
value there is nil, so the result is again none); otherwise the table name
is eventName ++ "_v" ++ the version rendered in decimal (fmt.Sprintf
"%s_v%d").  The error channel of the Go function is dead in this embedding
because extraction of a present extension cannot fail. -/
def getBigqueryMessageOptions (msg : DescriptorProto) : Option BigQueryMessageOptions :=
  match msg.options with
  | none => none
  | some blob =>
      match blob.eventName, blob.eventVersion with
      | some n, some v =>
          if n = "" then none
          else some { tableName := n ++ "_v" ++ toString v, useJsonNames := false }
      | _, _ => none

/-- Output column (the Field struct serialized into the schema): name, type,
mode, description, nested fields. -/
inductive Field where
  | mk (name : String) (type : String) (mode : String)
       (description : String) (fields : List Field)

def Field.name : Field → String
  | .mk n _ _ _ _ => n

def Field.type : Field → String
  | .mk _ t _ _ _ => t

def Field.mode : Field → String
  | .mk _ _ m _ _ => m

def Field.description : Field → String
  | .mk _ _ _ d _ => d

def Field.fields : Field → List Field
  | .mk _ _ _ _ fs => fs

/-- Loop body of convertMessageType, abstracted over the per field
converter: fields are converted in declaration order, the first error
aborts, a nil column (skip) is omitted, surviving columns are collected in
order. -/
def convertFieldsWith (cf : FieldDescriptorProto → Except String (Option Field))
    (fs : List FieldDescriptorProto) : Except String (List Field) :=
  fs.foldr
    (fun f acc =>
      match cf f with
      | .error e => .error e
      | .ok none => acc
      | .ok (some fld) =>
          match acc with
          | .error e => .error e
          | .ok rest => .ok (fld :: rest))
    (.ok [])

/-- Tail of convertField after the name, mode and type have been resolved
and the field options applied, parametrized by the recursive conversion of
a referenced message: a non RECORD type is complete; a RECORD type is first
checked against the well known type table, then resolved through lookupType
and converted recursively with the options of the referenced message
re-derived by getBigqueryMessageOptions; a recursive result with zero
columns discards the field. -/
def convertFieldTail
    (recurse : DescriptorProto → Except String (List Field))
    (root : ProtoPackage) (curPath : List String) (desc : FieldDescriptorProto)
    (name ty mode descr : String) : Except String (Option Field) :=
  if ty ≠ "RECORD" then .ok (some (.mk name ty mode descr []))
  else
    match typeFromWKT desc.typeName with
    | some t => .ok (some (.mk name t mode descr []))
    | none =>
        match lookupType root curPath desc.typeName with
        | none => .error ("no such message type named " ++ desc.typeName)
        | some recordType =>
            match recurse recordType with
            | .error e => .error e
            | .ok fields =>
                if fields.length = 0 then .ok none
                else .ok (some (.mk name ty mode descr fields))

/-- Embeds convertField(curPkg, desc, msgOpts), with a fuel bound standing
for the recursion depth available to nested RECORD conversion (the Go code
recurses unboundedly; every claim is stated at sufficient fuel).  The name
starts from the declared name, replaced by the wire safe json name when the
containing message options request it; the mode and type map lookups fail
with the exact Go error strings; field level options then apply in source
order: Ignore skips the field, Require forces the REQUIRED mode, a nonempty
TypeOverride replaces the type, a nonempty Name replaces the name, a
nonempty Description is attached. -/
def convertField : Nat → ProtoPackage → List String → FieldDescriptorProto →
    Option BigQueryMessageOptions → Except String (Option Field)
  | 0, _, _, _, _ => .error "recursion limit exceeded"
  | Nat.succ n, root, curPath, desc, msgOpts =>
      let name0 := if getUseJsonNames msgOpts && desc.jsonName ≠ "" then desc.jsonName
                   else desc.name
      match modeFromFieldLabel desc.label with
      | none => .error ("unrecognized field label: " ++ labelString desc.label)
      | some mode0 =>
          match typeFromFieldType desc.type with
          | none => .error ("unrecognized field type: " ++ typeString desc.type)
          | some type0 =>
              let recurse := fun (recordType : DescriptorProto) =>
                convertFieldsWith
                  (fun f => convertField n root curPath f
                              (getBigqueryMessageOptions recordType))
                  recordType.field
              match desc.options with
              | some o =>
                  if o.ignore then .ok none
                  else
                    convertFieldTail recurse root curPath desc
                      (if 0 < o.name.length then o.name else name0)
                      (if 0 < o.typeOverride.length then o.typeOverride else type0)
                      (if o.require then "REQUIRED" else mode0)
                      (if 0 < o.description.length then o.description else "")
              | none => convertFieldTail recurse root curPath desc name0 type0 mode0 ""

/-- Field loop of convertMessageType at a given fuel. -/
def convertFields (fuel : Nat) (root : ProtoPackage) (curPath : List String)
    (fs : List FieldDescriptorProto) (opts : Option BigQueryMessageOptions) :
    Except String (List Field) :=
  convertFieldsWith (fun f => convertField fuel root curPath f opts) fs

/-- Embeds convertMessageType(curPkg, msg, opts). -/
def convertMessageType (fuel : Nat) (root : ProtoPackage) (curPath : List String)
    (msg : DescriptorProto) (opts : Option BigQueryMessageOptions) :
    Except String (List Field) :=
  convertFields fuel root curPath msg.field opts

/-- One generated artifact (plugin.CodeGeneratorResponse_File); the content
is kept as the structured schema whose JSON rendering the Go code emits. -/
structure ResponseFile where
  name : String
  schema : List Field

/-- File descriptor (descriptor.FileDescriptorProto), restricted to the
accessors the plugin reads: GetName, Package / GetPackage, GetMessageType. -/
structure FileDescriptorProto where
  name : String
  package : Option String
  messageType : List DescriptorProto

/-- Embeds file.GetPackage(), the nil safe getter. -/
def getPackage (file : FileDescriptorProto) : String :=
  match file.package with
  | some s => s
  | none => ""

/-- Embeds strings.Replace(pkg, ".", "/", -1) used to build the output
path. -/
def replaceDots (s : String) : String :=
  String.mk (s.data.map (fun c => if c = '.' then '/' else c))

/-- Message loop of convertFile: a message whose options resolver yields
none is skipped, as is one whose table name is empty; otherwise the message
is converted and, on success, an artifact named
package-with-slashes/tableName.schema is emitted; the first conversion
error aborts the file. -/
def convertMessages (fuel : Nat) (root : ProtoPackage) (curPath : List String)
    (pkgStr : String) : List DescriptorProto → Except String (List ResponseFile)
  | [] => .ok []
  | msg :: rest =>
      match getBigqueryMessageOptions msg with
      | none => convertMessages fuel root curPath pkgStr rest
      | some opts =>
          if opts.tableName.length = 0 then
            convertMessages fuel root curPath pkgStr rest
          else
            match convertMessageType fuel root curPath msg (some opts) with
            | .error e => .error e
            | .ok schema =>
                match convertMessages fuel root curPath pkgStr rest with
                | .error e => .error e
                | .ok out =>
                    .ok ({ name := replaceDots pkgStr ++ "/" ++ opts.tableName
                             ++ ".schema",
                           schema := schema } :: out)

/-- Embeds convertFile(file): the package of the file is located in the
registered tree (failure is the error the Go code returns), then every top
level message is processed by the message loop. -/
def convertFile (fuel : Nat) (root : ProtoPackage) (file : FileDescriptorProto) :
    Except String (List ResponseFile) :=
  match relativelyLookupPackage root (getPackage file) with
  | none => .error ("no such package found: " ++ getPackage file)
  | some _ =>
      convertMessages fuel root (splitDots (getPackage file)) (getPackage file)
        file.messageType

/-- Batch request (plugin.CodeGeneratorRequest), restricted to the accessors
the plugin reads: GetFileToGenerate, GetProtoFile. -/
structure CodeGeneratorRequest where
  fileToGenerate : List String
  protoFile : List FileDescriptorProto

/-- Batch response (plugin.CodeGeneratorResponse): error and generated file
list. -/
structure CodeGeneratorResponse where
  error : Option String
  file : List ResponseFile

/-- Driver loop of Convert over the proto files: a file not requested is
skipped; a conversion error stops the loop, setting the response error to
the message naming the offending file and the underlying cause (the
artifacts appended by earlier iterations are kept, exactly as the Go code
returns the partially filled res); artifacts of a successful file are
appended in order. -/
def ConvertLoop (fuel : Nat) (root : ProtoPackage) (targets : List String) :
    List FileDescriptorProto → CodeGeneratorResponse
  | [] => { error := none, file := [] }
  | f :: fs =>
      if targets.contains f.name then
        match convertFile fuel root f with
        | .error e =>
            { error := some ("Failed to convert " ++ f.name ++ ": " ++ e),
              file := [] }
        | .ok arts =>
            let r := ConvertLoop fuel root targets fs
            { error := r.error, file := arts ++ r.file }
      else ConvertLoop fuel root targets fs

/-- Registration pass of Convert: every message of every proto file is
registered, in order, before any conversion. -/
def buildRoot (req : CodeGeneratorRequest) : ProtoPackage :=
  req.protoFile.foldl
    (fun r f => f.messageType.foldl (fun r2 m => registerType r2 f.package m) r)
    globalPkgInit

/-- Embeds Convert(req): register everything, then convert exactly the
requested files. -/
def Convert (fuel : Nat) (req : CodeGeneratorRequest) : CodeGeneratorResponse :=
  ConvertLoop fuel (buildRoot req) req.fileToGenerate req.protoFile

/-- Chain of nodes the upward loop of lookupType visits, on the reversed
current path: the node designated by the whole path (when it exists), then
the nodes of the shorter and shorter paths, ending with the root. -/
def ancestorChain (root : ProtoPackage) : List String → List ProtoPackage
  | [] => [root]
  | c :: rest =>
      match nodeAt root (c :: rest).reverse with
      | some p => p :: ancestorChain root rest
      | none => ancestorChain root rest

/-- Spec side description of the relative search order: the current node
first, then each successive enclosing package, ending at the global root. -/
def ancestors (root : ProtoPackage) (path : List String) : List ProtoPackage :=
  ancestorChain root path.reverse

/-- Concrete message used by the C3 witness. -/
def c3msg : DescriptorProto := .mk "M" [] [] none

/-- Concrete message used by the C4 witness. -/
def c4msg : DescriptorProto := .mk "T" [] [] none

/-- Concrete tree for the C4 witness: one type T registered in package a.b. -/
def c4root : ProtoPackage := registerType globalPkgInit (some "a.b") c4msg

/-- Concrete nested message for C5. -/
def c5msgB : DescriptorProto := .mk "B" [] [] none

/-- Concrete outer message for C5: type A declaring nested type B. -/
def c5msgA : DescriptorProto := .mk "A" [] [c5msgB] none

/-- Concrete node for the C5 counterexample: it owns BOTH a child package
named A (which contains nothing) and a type named A with nested type B. -/
def c5pkg : ProtoPackage := .mk "" [("A", .mk ".A" [] [])] [("A", c5msgA)]

/-- Concrete message for the C1 counterexample: both annotations present,
event name empty. -/
def c1msg : DescriptorProto := .mk "M" [] [] (some ⟨some "", some 1⟩)

/-- Concrete message for the C1 witness: event name purchase, version 2. -/
def c1msgW : DescriptorProto := .mk "Purchase" [] [] (some ⟨some "purchase", some 2⟩)

/-- Concrete scalar field for the C2 batch. -/
def c2fld : FieldDescriptorProto := ⟨"f", "", 1, 9, "", none⟩

/-- Concrete qualifying message that converts cleanly (C2). -/
def c2msgGood : DescriptorProto := .mk "Good" [c2fld] [] (some ⟨some "purchase", some 2⟩)

/-- Concrete field with an unrecognized cardinality label 4 (C2). -/
def c2fldBad : FieldDescriptorProto := ⟨"g", "", 4, 9, "", none⟩

/-- Concrete qualifying message whose conversion errors (C2). -/
def c2msgBad : DescriptorProto := .mk "Bad" [c2fldBad] [] (some ⟨some "bad", some 1⟩)

/-- First requested file of the C2 batch (converts successfully). -/
def c2fileA : FileDescriptorProto := ⟨"a.proto", some "pkg", [c2msgGood]⟩

/-- Second requested file of the C2 batch (errors). -/
def c2fileB : FileDescriptorProto := ⟨"b.proto", some "pkg", [c2msgBad]⟩

/-- The C2 batch request: both files requested. -/
def c2req : CodeGeneratorRequest := ⟨["a.proto", "b.proto"], [c2fileA, c2fileB]⟩

/-- The artifact the first C2 file generates. -/
def c2art : ResponseFile :=
  ⟨"pkg/purchase_v2.schema", [.mk "f" "STRING" "NULLABLE" "" []]⟩

/-- Concrete field with every override set (C6 witness). -/
def c6desc : FieldDescriptorProto :=
  ⟨"fld", "jname", 2, 9, "", some ⟨false, true, "FLOAT", "nm", "dd"⟩⟩

/-- Concrete field with the drop override set (C6 witness). -/
def c6descIgnored : FieldDescriptorProto :=
  ⟨"fld", "", 3, 11, ".x.Y", some ⟨true, false, "", "", ""⟩⟩

/-- Concrete field with an unrecognized label (C7 witness). -/
def c7descBadLabel : FieldDescriptorProto := ⟨"a", "", 7, 9, "", none⟩

/-- Concrete field with an unrecognized kind 99 (C7 witness). -/
def c7descBadType : FieldDescriptorProto := ⟨"b", "", 1, 99, "", none⟩

/-- Concrete boolean field (C7 witness). -/
def c7descBool : FieldDescriptorProto := ⟨"c", "", 3, 8, "", none⟩

/-- Concrete timestamp wrapper field (C8 witness). -/
def c8desc : FieldDescriptorProto :=
  ⟨"ts", "", 1, 11, ".google.protobuf.Timestamp", none⟩

/-- Concrete message whose only field carries the drop override, so its
conversion yields zero columns (C9 witness). -/
def c9msgEmpty : DescriptorProto :=
  .mk "Empty" [⟨"x", "", 1, 9, "", some ⟨true, false, "", "", ""⟩⟩] [] none

/-- Concrete tree with Empty registered in package pkg (C9 witness). -/
def c9root : ProtoPackage := registerType globalPkgInit (some "pkg") c9msgEmpty

/-- Concrete record field referencing Empty (C9 witness). -/
def c9desc : FieldDescriptorProto := ⟨"rec", "", 1, 11, ".pkg.Empty", none⟩

/-- Concrete annotation free message with one plain field that does carry a
wire safe json name (C10 witness). -/
def c10msgPlain : DescriptorProto :=
  .mk "Plain" [⟨"x", "jx", 1, 9, "", none⟩] [] none

/-- Concrete tree with Plain registered in package pkg (C10 witness). -/
def c10root : ProtoPackage := registerType globalPkgInit (some "pkg") c10msgPlain

/-- Concrete record field referencing Plain (C10 witness). -/
def c10desc : FieldDescriptorProto := ⟨"rec", "", 1, 11, ".pkg.Plain", none⟩

theorem lookupAssoc_insertAssoc_self {α : Type} (l : List (String × α)) (k : String) (v : α) :
    lookupAssoc (insertAssoc l k v) k = some v := by
  induction l with
  | nil => simp [insertAssoc, lookupAssoc]
  | cons hd tl ih =>
      obtain ⟨k0, v0⟩ := hd
      by_cases h : k0 = k
      · simp [insertAssoc, h, lookupAssoc]
      · simp [insertAssoc, h, lookupAssoc, ih]

theorem relativelyLookupTypeC_insertType (comps : List String) (root : ProtoPackage)
    (msg : DescriptorProto) :
    relativelyLookupTypeC (insertType root comps msg) (comps ++ [msg.name]) = some msg := by
  induction comps generalizing root with
  | nil =>
      obtain ⟨n, cs, ts⟩ := root
      simp [insertType, relativelyLookupTypeC, ProtoPackage.types,
        lookupAssoc_insertAssoc_self]
  | cons c cs ih =>
      obtain ⟨n, cs0, ts⟩ := root
      cases hcs : cs ++ [msg.name] with
      | nil => exact absurd hcs (by simp)
      | cons c2 rest =>
          rw [show (c :: cs) ++ [msg.name] = c :: c2 :: rest by simp [hcs]]
          simp only [insertType, relativelyLookupTypeC, ProtoPackage.children,
            lookupAssoc_insertAssoc_self]
          rw [← hcs]
          exact ih _

theorem findSome?_eq_none_of {α β : Type} (f : α → Option β) (l : List α) :
    (∀ a ∈ l, f a = none) → l.findSome? f = none := by
  induction l with
  | nil => intro _; simp [List.findSome?]
  | cons a as ih =>
      intro h
      have ha : f a = none := h a (by simp)
      simp only [List.findSome?, ha]
      exact ih (fun x hx => h x (by simp [hx]))

theorem lookupUp_eq_findSome (root : ProtoPackage) (name : String)
    (revPath : List String) :
    lookupUp root name revPath
      = (ancestorChain root revPath).findSome? (fun p => relativelyLookupType p name) := by
  induction revPath with
  | nil =>
      simp only [lookupUp, ancestorChain, List.findSome?]
      cases relativelyLookupType root name <;> rfl
  | cons c rest ih =>
      simp only [lookupUp, ancestorChain]
      cases hn : nodeAt root (c :: rest).reverse with
      | none => simpa using ih
      | some p =>
          simp only [List.findSome?]
          cases hr : relativelyLookupType p name with
          | some d => simp [hr]
          | none => simpa [hr] using ih

/-- C3: a message registered under any package path is found again by
resolving its fully qualified absolute reference (leading dot, package
components, simple name) from any current node.  The hypotheses say exactly
that ref is the absolute reference of the registered message: it starts
with the dot and its remaining dot separated components are the components
registerType walked followed by the simple message name. -/
theorem c3_register_lookup_roundtrip (root : ProtoPackage) (pkgName : Option String)
    (msg : DescriptorProto) (curPath : List String) (ref : String)
    (h1 : startsWithDot ref = true)
    (h2 : splitDots (dropFirstChar ref) = registerComps pkgName ++ [msg.name]) :
    lookupType (registerType root pkgName msg) curPath ref = some msg := by
  unfold lookupType
  simp only [h1, if_true]
  unfold relativelyLookupType registerType
  rw [h2]
  exact relativelyLookupTypeC_insertType _ _ _

/-- Witness for C3 at a concrete input: register M under a.b, resolve
".a.b.M" from the unrelated current node x. -/
theorem c3_register_lookup_roundtrip_witness :
    startsWithDot ".a.b.M" = true ∧
    splitDots (dropFirstChar ".a.b.M") = registerComps (some "a.b") ++ [c3msg.name] ∧
    lookupType (registerType globalPkgInit (some "a.b") c3msg) ["x"] ".a.b.M" = some c3msg :=
  ⟨by decide, by decide,
    c3_register_lookup_roundtrip globalPkgInit (some "a.b") c3msg ["x"] ".a.b.M"
      (by decide) (by decide)⟩

/-- C4: a reference with a leading separator is resolved against the global
root only, with no upward fallback; a reference without it is resolved by
trying the current node and then each successive enclosing node up to the
root, taking the first (nearest) success; when no level succeeds the result
is the not-found value none, not an exception. -/
theorem c4_lookup_resolution (root : ProtoPackage) (path : List String) (ref : String) :
    (startsWithDot ref = true →
       lookupType root path ref = relativelyLookupType root (dropFirstChar ref)) ∧
    (startsWithDot ref = false →
       lookupType root path ref
         = (ancestors root path).findSome? (fun p => relativelyLookupType p ref)) ∧
    (startsWithDot ref = false →
       (∀ p ∈ ancestors root path, relativelyLookupType p ref = none) →
       lookupType root path ref = none) := by
  refine ⟨fun h => by simp [lookupType, h], fun h => ?_, fun h hall => ?_⟩
  · simp only [lookupType, h, Bool.false_eq_true, if_false]
    exact lookupUp_eq_findSome root ref path.reverse
  · simp only [lookupType, h, Bool.false_eq_true, if_false]
    rw [lookupUp_eq_findSome root ref path.reverse]
    exact findSome?_eq_none_of _ _ hall

/-- Witness for C4 at a concrete input: from current node a.b, the bare
reference T resolves through the ancestor chain and indeed finds the type
registered in a.b. -/
theorem c4_lookup_resolution_witness :
    startsWithDot "T" = false ∧
    lookupType c4root ["a", "b"] "T"
      = (ancestors c4root ["a", "b"]).findSome? (fun p => relativelyLookupType p "T") ∧
    lookupType c4root ["a", "b"] "T" = some c4msg :=
  ⟨by decide, (c4_lookup_resolution c4root ["a", "b"] "T").2.1 (by decide), rfl⟩

/-- C5 counterexample: in a node owning both a child package named A (with
nothing inside) and a type named A that declares a nested type B, the
reference "A.B" does NOT resolve, although the fallback to the type named A
and its nested type B that the claim prescribes would have succeeded: the
code never falls back once a child package named A exists, even when the
recursion into that child fails. -/
theorem c5_counterexample :
    lookupAssoc c5pkg.children "A" = some (.mk ".A" [] []) ∧
    relativelyLookupType (.mk ".A" [] []) "B" = none ∧
    relativelyLookupNestedType c5msgA "B" = some c5msgB ∧
    relativelyLookupType c5pkg "A.B" = none :=
  ⟨rfl, rfl, rfl, rfl⟩

/-- C5 (amended): within a single node, a dotted reference A.B first tries A
as a child package and recurses there, and that result is final whenever a
child package named A exists; ONLY IF NO CHILD PACKAGE NAMED A EXISTS the
node tries A as one of its own types and walks the nested type lists one
dotted segment at a time, the whole lookup failing as soon as a segment has
no matching nested type; a reference with no dot is looked up only in the
types mapping of the node. -/
theorem c5_relative_lookup (pkg : ProtoPackage) (name A : String) (rest : List String) :
    (splitDots name = [A] →
       relativelyLookupType pkg name = lookupAssoc pkg.types A) ∧
    (splitDots name = A :: rest → rest ≠ [] →
       relativelyLookupType pkg name
         = match lookupAssoc pkg.children A with
           | some child => relativelyLookupTypeC child rest
           | none =>
               match lookupAssoc pkg.types A with
               | some m => relativelyLookupNestedTypeC m rest
               | none => none) ∧
    (∀ d c cs, findNested d c = none →
       relativelyLookupNestedTypeC d (c :: cs) = none) := by
  refine ⟨fun h => ?_, fun h hne => ?_, fun d c cs h => ?_⟩
  · simp [relativelyLookupType, h, relativelyLookupTypeC]
  · cases rest with
    | nil => exact absurd rfl hne
    | cons c2 r => simp [relativelyLookupType, h, relativelyLookupTypeC]
  · simp [relativelyLookupNestedTypeC, h]

/-- Witness for C5 at concrete inputs: the dotted case with an existing
child package, and the no-dot case. -/
theorem c5_relative_lookup_witness :
    (splitDots "A.B" = ["A"] ++ ["B"] ∧
       relativelyLookupType c5pkg "A.B"
         = match lookupAssoc c5pkg.children "A" with
           | some child => relativelyLookupTypeC child ["B"]
           | none =>
               match lookupAssoc c5pkg.types "A" with
               | some m => relativelyLookupNestedTypeC m ["B"]
               | none => none) ∧
    (splitDots "A" = ["A"] ∧
       relativelyLookupType c5pkg "A" = lookupAssoc c5pkg.types "A") :=
  ⟨⟨by decide, (c5_relative_lookup c5pkg "A.B" "A" ["B"]).2.1 (by decide) (by decide)⟩,
   ⟨by decide, (c5_relative_lookup c5pkg "A" "A" []).1 (by decide)⟩⟩

/-- C1 counterexample: the options blob of this message carries both the
event name annotation and the event version annotation (both are present),
yet the Options Resolver yields no options, because the present event name
is the empty string: the early return on an empty event name makes the
claimed equivalence fail in the only-if direction. -/
theorem c1_counterexample :
    c1msg.options.map MessageOptionsBlob.eventName = some (some "") ∧
    c1msg.options.map MessageOptionsBlob.eventVersion = some (some 1) ∧
    getBigqueryMessageOptions c1msg = none :=
  ⟨rfl, rfl, rfl⟩

/-- C1 (amended): the Options Resolver yields options if and only if the
options blob carries both annotations AND the carried event name is a
nonempty string; when it yields options the table name is exactly the event
name, the literal _v, and the version rendered as a plain decimal integer;
and a message whose options are absent is skipped by the driver loop,
producing no artifact and no error. -/
theorem c1_options_resolver (msg : DescriptorProto) :
    (∀ n v, msg.options = some ⟨some n, some v⟩ → n ≠ "" →
       getBigqueryMessageOptions msg
         = some { tableName := n ++ "_v" ++ toString v, useJsonNames := false }) ∧
    (∀ o, getBigqueryMessageOptions msg = some o →
       ∃ n v, msg.options = some ⟨some n, some v⟩ ∧ n ≠ "" ∧
         o.tableName = n ++ "_v" ++ toString v) ∧
    (∀ fuel root curPath pkgStr rest,
       getBigqueryMessageOptions msg = none →
       convertMessages fuel root curPath pkgStr (msg :: rest)
         = convertMessages fuel root curPath pkgStr rest) := by
  refine ⟨fun n v h hne => ?_, fun o h => ?_, fun fuel root curPath pkgStr rest h => ?_⟩
  · simp [getBigqueryMessageOptions, h, hne]
  · cases hmo : msg.options with
    | none => simp [getBigqueryMessageOptions, hmo] at h
    | some blob =>
        obtain ⟨en, ev⟩ := blob
        cases en with
        | none => simp [getBigqueryMessageOptions, hmo] at h
        | some n =>
            cases ev with
            | none => simp [getBigqueryMessageOptions, hmo] at h
            | some v =>
                by_cases hne : n = ""
                · simp [getBigqueryMessageOptions, hmo, hne] at h
                · simp only [getBigqueryMessageOptions, hmo, if_neg hne,
                    Option.some.injEq] at h
                  exact ⟨n, v, rfl, hne, by rw [← h]⟩
  · simp [convertMessages, h]

/-- Witness for C1 at a concrete input: event name purchase and version 2
give the table name purchase_v2, and an options-free message is skipped by
the driver loop without error. -/
theorem c1_options_resolver_witness :
    c1msgW.options = some ⟨some "purchase", some 2⟩ ∧
    ("purchase" : String) ≠ "" ∧
    getBigqueryMessageOptions c1msgW
      = some { tableName := "purchase" ++ "_v" ++ toString (2 : Int),
               useJsonNames := false } ∧
    getBigqueryMessageOptions c1msgW = some ⟨"purchase_v2", false⟩ ∧
    convertMessages 3 globalPkgInit [] "pkg" [c3msg]
      = convertMessages 3 globalPkgInit [] "pkg" [] :=
  ⟨rfl, by decide,
    (c1_options_resolver c1msgW).1 "purchase" 2 rfl (by decide),
    rfl,
    (c1_options_resolver c3msg).2.2 3 globalPkgInit [] "pkg" [] rfl⟩

/-- C2 counterexample: in a batch of two requested files where the first
converts successfully and the second raises a hard conversion error, the
returned result carries the surfaced error AND still lists the artifact
generated from the first file, so the generated-file list is not empty when
a requested file errors. -/
theorem c2_counterexample :
    (Convert 10 c2req).error
      = some "Failed to convert b.proto: unrecognized field label: 4" ∧
    (Convert 10 c2req).file.map ResponseFile.name = ["pkg/purchase_v2.schema"] :=
  ⟨rfl, rfl⟩

/-- C2 (amended): if converting a requested file raises a hard conversion
error, the driver stops there and the batch result carries a single error
naming the offending file and the underlying cause; no artifact of the
failing file (or of any later file) is emitted, but the artifacts of the
requested files already converted earlier in the batch remain in the
generated-file list. -/
theorem c2_batch_error (fuel : Nat) (root : ProtoPackage) (targets : List String)
    (pre : List FileDescriptorProto) (f : FileDescriptorProto)
    (post : List FileDescriptorProto) (e : String) (arts : List ResponseFile)
    (hpre : ConvertLoop fuel root targets pre = { error := none, file := arts })
    (hf : targets.contains f.name = true)
    (he : convertFile fuel root f = .error e) :
    ConvertLoop fuel root targets (pre ++ f :: post)
      = { error := some ("Failed to convert " ++ f.name ++ ": " ++ e),
          file := arts } := by
  have hcons : ∀ (g : FileDescriptorProto) (gs : List FileDescriptorProto),
      ConvertLoop fuel root targets (g :: gs)
        = if targets.contains g.name = true then
            (match convertFile fuel root g with
             | .error e2 =>
                 { error := some ("Failed to convert " ++ g.name ++ ": " ++ e2),
                   file := [] }
             | .ok arts2 =>
                 { error := (ConvertLoop fuel root targets gs).error,
                   file := arts2 ++ (ConvertLoop fuel root targets gs).file })
          else ConvertLoop fuel root targets gs := fun g gs => rfl
  induction pre generalizing arts with
  | nil =>
      have h1 : ({ error := none, file := [] } : CodeGeneratorResponse)
          = { error := none, file := arts } := hpre
      have harts : arts = [] := by simpa using h1.symm
      subst harts
      rw [List.nil_append, hcons, if_pos hf, he]
  | cons p ps ih =>
      rw [List.cons_append, hcons]
      by_cases hp : targets.contains p.name = true
      case neg =>
          rw [if_neg hp]
          refine ih arts ?_
          rw [← hpre, hcons, if_neg hp]
      case pos =>
          rw [if_pos hp]
          rw [hcons, if_pos hp] at hpre
          cases hcf : convertFile fuel root p with
          | error e2 =>
              rw [hcf] at hpre
              exact absurd (congrArg CodeGeneratorResponse.error hpre) (by simp)
          | ok a =>
              rw [hcf] at hpre
              have herr : (ConvertLoop fuel root targets ps).error = none := by
                have h1 := congrArg CodeGeneratorResponse.error hpre
                simpa using h1
              have hfile : a ++ (ConvertLoop fuel root targets ps).file = arts := by
                have h1 := congrArg CodeGeneratorResponse.file hpre
                simpa using h1
              have hps : ConvertLoop fuel root targets ps
                  = { error := none,
                      file := (ConvertLoop fuel root targets ps).file } := by
                cases hr : ConvertLoop fuel root targets ps with
                | mk err fl =>
                    rw [hr] at herr
                    simp only at herr
                    simp [herr]
              rw [ih _ hps]
              simp [hfile]

/-- Witness for C2 at a concrete input: the two-file batch of the
counterexample, applied through the amended statement. -/
theorem c2_batch_error_witness :
    ConvertLoop 10 (buildRoot c2req) ["a.proto", "b.proto"] [c2fileA]
      = { error := none, file := [c2art] } ∧
    (["a.proto", "b.proto"] : List String).contains c2fileB.name = true ∧
    convertFile 10 (buildRoot c2req) c2fileB = .error "unrecognized field label: 4" ∧
    ConvertLoop 10 (buildRoot c2req) ["a.proto", "b.proto"] ([c2fileA] ++ c2fileB :: [])
      = { error := some ("Failed to convert " ++ c2fileB.name ++ ": "
            ++ "unrecognized field label: 4"),
          file := [c2art] } :=
  ⟨rfl, by decide, rfl,
    c2_batch_error 10 (buildRoot c2req) ["a.proto", "b.proto"] [c2fileA] c2fileB []
      "unrecognized field label: 4" [c2art] rfl (by decide) rfl⟩

theorem eq_empty_of_not_length_pos (s : String) (h : ¬ 0 < s.length) : s = "" := by
  cases s with
  | mk data =>
      cases data with
      | nil => rfl
      | cons c cs => exact absurd (by simp [String.length]) h

/-- C6: field level overrides apply in order: a set drop flag yields a
skipped field (ok none, no error); otherwise a force-required flag sets the
mode to REQUIRED regardless of the label, a nonempty type override replaces
the resolved type outright, a nonempty description is attached, and a
nonempty name override wins over both the declared name and the wire safe
json name.  The second part states the full output column for a non RECORD
override, exhibiting all four overrides at once. -/
theorem c6_field_overrides (fuel : Nat) (root : ProtoPackage) (curPath : List String)
    (desc : FieldDescriptorProto) (o : BigQueryFieldOptions)
    (msgOpts : Option BigQueryMessageOptions) (m t : String)
    (hopt : desc.options = some o)
    (hm : modeFromFieldLabel desc.label = some m)
    (ht : typeFromFieldType desc.type = some t) :
    (o.ignore = true →
       convertField (fuel + 1) root curPath desc msgOpts = .ok none) ∧
    (o.ignore = false → 0 < o.typeOverride.length → o.typeOverride ≠ "RECORD" →
       convertField (fuel + 1) root curPath desc msgOpts
         = .ok (some (.mk
             (if 0 < o.name.length then o.name
              else if getUseJsonNames msgOpts && desc.jsonName ≠ "" then desc.jsonName
              else desc.name)
             o.typeOverride
             (if o.require then "REQUIRED" else m)
             o.description
             []))) := by
  constructor
  · intro hig
    simp [convertField, hopt, hm, ht, hig]
  · intro hig hov hne
    have hdesc : (if 0 < o.description.length then o.description else "")
        = o.description := by
      by_cases hd : 0 < o.description.length
      · rw [if_pos hd]
      · rw [if_neg hd, eq_empty_of_not_length_pos o.description hd]
    simp only [convertField, hopt, hm, ht, hig, Bool.false_eq_true, if_false,
      if_pos hov, convertFieldTail, if_pos hne, hdesc]

/-- Witness for C6 at concrete inputs: a field with every override set, and
a field with the drop flag set. -/
theorem c6_field_overrides_witness :
    c6desc.options = some ⟨false, true, "FLOAT", "nm", "dd"⟩ ∧
    convertField 4 globalPkgInit [] c6desc none
      = .ok (some (.mk
          (if 0 < ("nm" : String).length then "nm"
           else if getUseJsonNames none && c6desc.jsonName ≠ "" then c6desc.jsonName
           else c6desc.name)
          "FLOAT" (if true then "REQUIRED" else "REQUIRED") "dd" [])) ∧
    convertField 4 globalPkgInit [] c6desc none
      = .ok (some (.mk "nm" "FLOAT" "REQUIRED" "dd" [])) ∧
    convertField 4 globalPkgInit [] c6descIgnored none = .ok none :=
  ⟨rfl,
    (c6_field_overrides 3 globalPkgInit [] c6desc ⟨false, true, "FLOAT", "nm", "dd"⟩
        none "REQUIRED" "STRING" rfl rfl rfl).2 rfl (by decide) (by decide),
    rfl,
    (c6_field_overrides 3 globalPkgInit [] c6descIgnored ⟨true, false, "", "", ""⟩
        none "REPEATED" "RECORD" rfl rfl rfl).1 rfl⟩

/-- C7: an unrecognized cardinality label is a hard conversion error with
the exact message of the code, an unrecognized kind likewise; when both are
recognized and the resolved type is not RECORD (and no field options are
present) the conversion succeeds with the mapped mode and type; and the two
mapping tables are exactly optional-NULLABLE, required-REQUIRED,
repeated-REPEATED, floating point kinds to FLOAT, all integer variants to
INTEGER, string and enum to STRING, bytes to BYTES, bool to BOOLEAN,
message and group to RECORD. -/
theorem c7_mapping_tables (fuel : Nat) (root : ProtoPackage) (curPath : List String)
    (desc : FieldDescriptorProto) (msgOpts : Option BigQueryMessageOptions) :
    (modeFromFieldLabel desc.label = none →
       convertField (fuel + 1) root curPath desc msgOpts
         = .error ("unrecognized field label: " ++ labelString desc.label)) ∧
    (∀ m, modeFromFieldLabel desc.label = some m →
       typeFromFieldType desc.type = none →
       convertField (fuel + 1) root curPath desc msgOpts
         = .error ("unrecognized field type: " ++ typeString desc.type)) ∧
    (∀ m t, modeFromFieldLabel desc.label = some m →
       typeFromFieldType desc.type = some t → t ≠ "RECORD" → desc.options = none →
       convertField (fuel + 1) root curPath desc msgOpts
         = .ok (some (.mk
             (if getUseJsonNames msgOpts && desc.jsonName ≠ "" then desc.jsonName
              else desc.name) t m "" []))) ∧
    (∀ l s, modeFromFieldLabel l = some s ↔
       (l = LABEL_OPTIONAL ∧ s = "NULLABLE") ∨ (l = LABEL_REQUIRED ∧ s = "REQUIRED") ∨
       (l = LABEL_REPEATED ∧ s = "REPEATED")) ∧
    (∀ k s, typeFromFieldType k = some s ↔
       ((k = TYPE_DOUBLE ∨ k = TYPE_FLOAT) ∧ s = "FLOAT") ∨
       ((k = TYPE_INT64 ∨ k = TYPE_UINT64 ∨ k = TYPE_INT32 ∨ k = TYPE_UINT32 ∨
         k = TYPE_FIXED64 ∨ k = TYPE_FIXED32 ∨ k = TYPE_SFIXED32 ∨
         k = TYPE_SFIXED64 ∨ k = TYPE_SINT32 ∨ k = TYPE_SINT64) ∧ s = "INTEGER") ∨
       ((k = TYPE_STRING ∨ k = TYPE_ENUM) ∧ s = "STRING") ∨
       (k = TYPE_BYTES ∧ s = "BYTES") ∨
       (k = TYPE_BOOL ∧ s = "BOOLEAN") ∨
       ((k = TYPE_GROUP ∨ k = TYPE_MESSAGE) ∧ s = "RECORD")) := by
  refine ⟨fun h => ?_, fun m hm h => ?_, fun m t hm ht hne hopt => ?_,
    fun l s => ?_, fun k s => ?_⟩
  · simp [convertField, h]
  · simp [convertField, hm, h]
  · simp only [convertField, hm, ht, hopt, convertFieldTail, if_pos hne]
  · constructor
    · intro h
      unfold modeFromFieldLabel at h
      split_ifs at h with h1 h2 h3
      · exact Or.inl ⟨h1, (Option.some.inj h).symm⟩
      · exact Or.inr (Or.inl ⟨h2, (Option.some.inj h).symm⟩)
      · exact Or.inr (Or.inr ⟨h3, (Option.some.inj h).symm⟩)
    · intro h
      rcases h with ⟨hk, hs⟩ | ⟨hk, hs⟩ | ⟨hk, hs⟩ <;> subst hs <;> subst hk <;> rfl
  · constructor
    · intro h
      unfold typeFromFieldType at h
      split_ifs at h with h1 h2 h3 h4 h5 h6 h7
      · exact Or.inl ⟨h1, (Option.some.inj h).symm⟩
      · exact Or.inr (Or.inl ⟨h2, (Option.some.inj h).symm⟩)
      · exact Or.inr (Or.inr (Or.inl ⟨Or.inl h3, (Option.some.inj h).symm⟩))
      · exact Or.inr (Or.inr (Or.inr (Or.inl ⟨h4, (Option.some.inj h).symm⟩)))
      · exact Or.inr (Or.inr (Or.inl ⟨Or.inr h5, (Option.some.inj h).symm⟩))
      · exact Or.inr (Or.inr (Or.inr (Or.inr (Or.inl ⟨h6, (Option.some.inj h).symm⟩))))
      · exact Or.inr (Or.inr (Or.inr (Or.inr (Or.inr ⟨h7, (Option.some.inj h).symm⟩))))
    · intro h
      rcases h with ⟨hk, hs⟩ | ⟨hk, hs⟩ | ⟨hk, hs⟩ | ⟨hk, hs⟩ | ⟨hk, hs⟩ | ⟨hk, hs⟩
      · subst hs; rcases hk with h | h <;> subst h <;> rfl
      · subst hs
        rcases hk with h | h | h | h | h | h | h | h | h | h <;> subst h <;> rfl
      · subst hs; rcases hk with h | h <;> subst h <;> rfl
      · subst hs; subst hk; rfl
      · subst hs; subst hk; rfl
      · subst hs; rcases hk with h | h <;> subst h <;> rfl

/-- Witness for C7 at concrete inputs: label 7 errors, kind 99 errors, a
repeated bool field succeeds as REPEATED BOOLEAN. -/
theorem c7_mapping_tables_witness :
    modeFromFieldLabel c7descBadLabel.label = none ∧
    convertField 4 globalPkgInit [] c7descBadLabel none
      = .error ("unrecognized field label: " ++ labelString 7) ∧
    convertField 4 globalPkgInit [] c7descBadType none
      = .error ("unrecognized field type: " ++ typeString 99) ∧
    convertField 4 globalPkgInit [] c7descBool none
      = .ok (some (.mk
          (if getUseJsonNames none && c7descBool.jsonName ≠ "" then c7descBool.jsonName
           else c7descBool.name) "BOOLEAN" "REPEATED" "" [])) ∧
    convertField 4 globalPkgInit [] c7descBool none
      = .ok (some (.mk "c" "BOOLEAN" "REPEATED" "" [])) :=
  ⟨rfl,
    (c7_mapping_tables 3 globalPkgInit [] c7descBadLabel none).1 rfl,
    (c7_mapping_tables 3 globalPkgInit [] c7descBadType none).2.1 "NULLABLE" rfl rfl,
    (c7_mapping_tables 3 globalPkgInit [] c7descBool none).2.2.1 "REPEATED" "BOOLEAN"
      rfl rfl (by decide) rfl,
    rfl⟩

/-- C8: a message typed field whose type reference matches the well known
type table becomes a column of the mapped scalar type with no nested
columns; the converter does not recurse into the wrapper (the equation
holds for every fuel and every tree, in particular with no recursion budget
left).  The remaining conjuncts pin the table itself: timestamp wrapper to
TIMESTAMP, duration wrapper to STRING, integer, float, bool, string and
bytes wrappers to their scalar equivalents. -/
theorem c8_wkt_mapping (fuel : Nat) (root : ProtoPackage) (curPath : List String)
    (desc : FieldDescriptorProto) (msgOpts : Option BigQueryMessageOptions)
    (m t : String)
    (hkind : desc.type = TYPE_MESSAGE)
    (hm : modeFromFieldLabel desc.label = some m)
    (hopt : desc.options = none)
    (hwkt : typeFromWKT desc.typeName = some t) :
    (convertField (fuel + 1) root curPath desc msgOpts
       = .ok (some (.mk
           (if getUseJsonNames msgOpts && desc.jsonName ≠ "" then desc.jsonName
            else desc.name) t m "" []))) ∧
    typeFromWKT ".google.protobuf.Timestamp" = some "TIMESTAMP" ∧
    typeFromWKT ".google.protobuf.Duration" = some "STRING" ∧
    typeFromWKT ".google.protobuf.Int32Value" = some "INTEGER" ∧
    typeFromWKT ".google.protobuf.Int64Value" = some "INTEGER" ∧
    typeFromWKT ".google.protobuf.UInt32Value" = some "INTEGER" ∧
    typeFromWKT ".google.protobuf.UInt64Value" = some "INTEGER" ∧
    typeFromWKT ".google.protobuf.DoubleValue" = some "FLOAT" ∧
    typeFromWKT ".google.protobuf.FloatValue" = some "FLOAT" ∧
    typeFromWKT ".google.protobuf.BoolValue" = some "BOOLEAN" ∧
    typeFromWKT ".google.protobuf.StringValue" = some "STRING" ∧
    typeFromWKT ".google.protobuf.BytesValue" = some "BYTES" := by
  have hrec : typeFromFieldType desc.type = some "RECORD" := by rw [hkind]; rfl
  refine ⟨?_, rfl, rfl, rfl, rfl, rfl, rfl, rfl, rfl, rfl, rfl, rfl⟩
  simp [convertField, hm, hrec, hopt, convertFieldTail, hwkt]

/-- Witness for C8 at a concrete input: a timestamp wrapper field becomes a
NULLABLE TIMESTAMP column with no nested columns, already at recursion
budget zero for the nested conversion. -/
theorem c8_wkt_mapping_witness :
    c8desc.type = TYPE_MESSAGE ∧
    typeFromWKT c8desc.typeName = some "TIMESTAMP" ∧
    convertField 1 globalPkgInit [] c8desc none
      = .ok (some (.mk
          (if getUseJsonNames none && c8desc.jsonName ≠ "" then c8desc.jsonName
           else c8desc.name) "TIMESTAMP" "NULLABLE" "" [])) ∧
    convertField 1 globalPkgInit [] c8desc none
      = .ok (some (.mk "ts" "TIMESTAMP" "NULLABLE" "" [])) :=
  ⟨rfl, rfl,
    (c8_wkt_mapping 0 globalPkgInit [] c8desc none "NULLABLE" "TIMESTAMP"
        rfl rfl rfl rfl).1,
    rfl⟩

/-- C9: a record field whose recursive conversion yields zero surviving
columns is dropped entirely (ok none, not an error); and a field whose
conversion yields ok none is absent from the columns its parent collects,
which is how suppression cascades upward. -/
theorem c9_empty_record (fuel : Nat) (root : ProtoPackage) (curPath : List String)
    (desc : FieldDescriptorProto) (msgOpts : Option BigQueryMessageOptions)
    (m : String) (recordType : DescriptorProto)
    (hm : modeFromFieldLabel desc.label = some m)
    (ht : typeFromFieldType desc.type = some "RECORD")
    (hopt : desc.options = none)
    (hwkt : typeFromWKT desc.typeName = none)
    (hlook : lookupType root curPath desc.typeName = some recordType)
    (hconv : convertFields fuel root curPath recordType.field
               (getBigqueryMessageOptions recordType) = .ok []) :
    convertField (fuel + 1) root curPath desc msgOpts = .ok none ∧
    (∀ f fs opts, convertField fuel root curPath f opts = .ok none →
       convertFields fuel root curPath (f :: fs) opts
         = convertFields fuel root curPath fs opts) := by
  constructor
  · have hconv2 : convertFieldsWith
        (fun f => convertField fuel root curPath f (getBigqueryMessageOptions recordType))
        recordType.field = .ok [] := hconv
    simp [convertField, hm, ht, hopt, convertFieldTail, hwkt, hlook, hconv2]
  · intro f fs opts h
    simp [convertFields, convertFieldsWith, h]

/-- Witness for C9 at a concrete input: Empty has a single dropped field, so
the record field referencing it is itself dropped, and the parent loop
omits it. -/
theorem c9_empty_record_witness :
    lookupType c9root [] ".pkg.Empty" = some c9msgEmpty ∧
    convertFields 3 c9root [] c9msgEmpty.field
      (getBigqueryMessageOptions c9msgEmpty) = .ok [] ∧
    convertField 4 c9root [] c9desc none = .ok none ∧
    convertFields 3 c9root [] (c9desc :: []) none = convertFields 3 c9root [] [] none :=
  ⟨rfl, rfl,
    (c9_empty_record 3 c9root [] c9desc none "NULLABLE" c9msgEmpty
        rfl rfl rfl rfl rfl rfl).1,
    (c9_empty_record 3 c9root [] c9desc none "NULLABLE" c9msgEmpty
        rfl rfl rfl rfl rfl rfl).2 c9desc []
      none ((c9_empty_record 2 c9root [] c9desc none "NULLABLE" c9msgEmpty
        rfl rfl rfl rfl rfl rfl).1)⟩

/-- C10: a record field whose referenced message has no annotations (or no
options blob) is still converted: the converter recurses into the message
with absent options instead of skipping it, so the annotation gate applies
only to top level artifact generation; and with absent options the wire
safe json renaming is disabled (getUseJsonNames of none is false). -/
theorem c10_nested_options (fuel : Nat) (root : ProtoPackage) (curPath : List String)
    (desc : FieldDescriptorProto) (msgOpts : Option BigQueryMessageOptions)
    (m : String) (recordType : DescriptorProto)
    (hm : modeFromFieldLabel desc.label = some m)
    (ht : typeFromFieldType desc.type = some "RECORD")
    (hopt : desc.options = none)
    (hwkt : typeFromWKT desc.typeName = none)
    (hlook : lookupType root curPath desc.typeName = some recordType)
    (hanno : getBigqueryMessageOptions recordType = none) :
    (convertField (fuel + 1) root curPath desc msgOpts
       = match convertFields fuel root curPath recordType.field none with
         | .error e => .error e
         | .ok fields =>
             if fields.length = 0 then .ok none
             else .ok (some (.mk
                 (if getUseJsonNames msgOpts && desc.jsonName ≠ "" then desc.jsonName
                  else desc.name) "RECORD" m "" fields))) ∧
    getUseJsonNames none = false := by
  constructor
  · have hrw : convertFieldsWith
        (fun f => convertField fuel root curPath f (getBigqueryMessageOptions recordType))
        recordType.field
        = convertFields fuel root curPath recordType.field none := by
      rw [hanno]; rfl
    simp only [convertField, hm, ht, hopt, convertFieldTail, hwkt, hlook, hrw]
    rfl
  · rfl

/-- Witness for C10 at a concrete input: Plain has no options blob, yet the
record field referencing it converts by recursion; the nested field keeps
its declared name x even though it carries the wire safe json name jx. -/
theorem c10_nested_options_witness :
    c10msgPlain.options = none ∧
    getBigqueryMessageOptions c10msgPlain = none ∧
    (convertField 4 c10root [] c10desc none
       = match convertFields 3 c10root [] c10msgPlain.field none with
         | .error e => .error e
         | .ok fields =>
             if fields.length = 0 then .ok none
             else .ok (some (.mk
                 (if getUseJsonNames none && c10desc.jsonName ≠ "" then c10desc.jsonName
                  else c10desc.name) "RECORD" "NULLABLE" "" fields))) ∧
    convertField 4 c10root [] c10desc none
      = .ok (some (.mk "rec" "RECORD" "NULLABLE" ""
          [.mk "x" "STRING" "NULLABLE" "" []])) :=
  ⟨rfl, rfl,
    (c10_nested_options 3 c10root [] c10desc none "NULLABLE" c10msgPlain
        rfl rfl rfl rfl rfl rfl).1,
    rfl⟩

end ProtocGenBqSchema
